import Mathlib

/-!
# Verification of the OCF-Guru open-channel hydraulics engine

A shallow embedding of the numerical core of the repository
(`src/utils/calculations.ts` and the multi-reach profile engine): cross-section
geometry, bisection solvers for normal and critical depth, the energy-branch
depth solver, the single-reach flow classifier `calculateFlow`, and the
multi-reach water-surface profile engine `calculateMultiReachProfile`.

JavaScript numbers are modelled as real numbers (`ℝ`); `Math.sqrt`, `Math.acos`,
`Math.sin` and `Math.pow(x, 2/3)` become `Real.sqrt`, `Real.arccos`, `Real.sin`
and `Real.rpow`.  JavaScript division by zero yields `Infinity`/`NaN`; in the
embedding `x / 0 = 0`, and the theorems that touch such points state the zero
divisor explicitly instead of relying on the quotient's value.  The `null`
coercion `null - x = -x` of JavaScript is modelled with `Option.getD 0`.
Loops with a fixed iteration count become structural recursion on a fuel
argument (for the bisection loops) or on a `List Unit` of the loop's
iterations (for the profile sub-step loop).
-/

namespace OCF

noncomputable section

inductive ChannelType
  | Rectangular
  | Trapezoidal
  | Triangular
  | Circular
deriving DecidableEq

inductive UnitSystem
  | SI
  | Imperial
deriving DecidableEq

/-- Gravitational acceleration, `UNIT_CONSTANTS[unit].G`. -/
def unitG : UnitSystem → ℝ
  | UnitSystem.SI => 9.81
  | UnitSystem.Imperial => 32.2

/-- Manning unit coefficient, `UNIT_CONSTANTS[unit].K`. -/
def unitK : UnitSystem → ℝ
  | UnitSystem.SI => 1.0
  | UnitSystem.Imperial => 1.486

def MAX_ITER : ℕ := 100

def TOLERANCE : ℝ := 1e-6

structure InputParams where
  flowRate : ℝ
  slope : ℝ
  manningN : ℝ
  width : ℝ
  sideSlope : ℝ
  diameter : ℝ

structure Geometry where
  A : ℝ
  P : ℝ
  T : ℝ
  centroidDepth : ℝ

/-- The per-shape geometry function (`getGeometry` in the source). -/
def getGeometry (type : ChannelType) (y : ℝ) (p : InputParams) : Geometry :=
  if y ≤ 0 then ⟨0, 0, 0, 0⟩ else
  match type with
  | ChannelType.Rectangular =>
      ⟨p.width * y, p.width + 2 * y, p.width, y / 2⟩
  | ChannelType.Trapezoidal =>
      let A := (p.width + p.sideSlope * y) * y
      let P := p.width + 2 * y * Real.sqrt (1 + p.sideSlope * p.sideSlope)
      let T := p.width + 2 * p.sideSlope * y
      let y_bar_bottom := (y / 3) * ((2 * T + p.width) / (T + p.width))
      ⟨A, P, T, y - y_bar_bottom⟩
  | ChannelType.Triangular =>
      ⟨p.sideSlope * y * y, 2 * y * Real.sqrt (1 + p.sideSlope * p.sideSlope),
        2 * p.sideSlope * y, y / 3⟩
  | ChannelType.Circular =>
      let D := p.diameter
      let depth := if D < y then D else y
      let theta := 2 * Real.arccos (1 - 2 * depth / D)
      let A := D ^ 2 / 8 * (theta - Real.sin theta)
      let P := D / 2 * theta
      let T := D * Real.sin (theta / 2)
      let alpha := theta / 2
      let seg := 2 * D * Real.sin alpha ^ 3 / (3 * (theta - Real.sin theta))
      ⟨A, P, T, (depth - D / 2) + seg⟩

/-- The bisection loop of `solveNormalDepth` (the `for` loop of lines 79-90),
with the iteration counter turned into structural fuel. -/
def normalLoop (type : ChannelType) (p : InputParams) (target : ℝ) :
    ℕ → ℝ → ℝ → ℝ
  | 0, lo, hi => (lo + hi) / 2
  | fuel + 1, lo, hi =>
    let mid := (lo + hi) / 2
    let geom := getGeometry type mid p
    if geom.P = 0 then normalLoop type p target fuel mid hi
    else
      let R := geom.A / geom.P
      let val := geom.A * R ^ ((2 : ℝ) / 3)
      if |val - target| < TOLERANCE then mid
      else if val < target then normalLoop type p target fuel mid hi
      else normalLoop type p target fuel lo mid

/-- Normal depth, `solveNormalDepth`: bisection on Manning conveyance against
`target = Q·n/(K·√S)`, bracket `[0, D]` for circular and `[0, 50]` otherwise. -/
def solveNormalDepth (type : ChannelType) (p : InputParams) (unit : UnitSystem) : ℝ :=
  let target := p.flowRate * p.manningN / (unitK unit * Real.sqrt p.slope)
  normalLoop type p target MAX_ITER 0
    (if type = ChannelType.Circular then p.diameter else 50)

/-- The bisection loop of `solveCriticalDepth` (lines 101-109). -/
def criticalLoop (type : ChannelType) (p : InputParams) (Q2 G : ℝ) :
    ℕ → ℝ → ℝ → ℝ
  | 0, lo, hi => (lo + hi) / 2
  | fuel + 1, lo, hi =>
    let mid := (lo + hi) / 2
    let geom := getGeometry type mid p
    let val := G * geom.A ^ 3 - Q2 * geom.T
    if |val| < TOLERANCE then mid
    else if val < 0 then criticalLoop type p Q2 G fuel mid hi
    else criticalLoop type p Q2 G fuel lo mid

/-- Critical depth, `solveCriticalDepth`: zero-crossing bisection on `g·A³ − Q²·T`. -/
def solveCriticalDepth (type : ChannelType) (p : InputParams) (unit : UnitSystem) : ℝ :=
  criticalLoop type p (p.flowRate ^ 2) (unitG unit) MAX_ITER 0
    (if type = ChannelType.Circular then p.diameter else 50)

inductive FlowRegime
  | Subcritical
  | Supercritical
  | Critical
deriving DecidableEq

/-- The energy bisection loop of `solveDepthFromEnergy` (lines 132-151). -/
def energyLoop (type : ChannelType) (p : InputParams) (E G Q : ℝ)
    (regime : FlowRegime) : ℕ → ℝ → ℝ → ℝ
  | 0, lo, hi => (lo + hi) / 2
  | fuel + 1, lo, hi =>
    let mid := (lo + hi) / 2
    let geom := getGeometry type mid p
    let V := if 0 < geom.A then Q / geom.A else 0
    let E_calc := mid + V * V / (2 * G)
    if |E_calc - E| < 1e-4 then mid
    else if regime = FlowRegime.Supercritical then
      if E < E_calc then energyLoop type p E G Q regime fuel mid hi
      else energyLoop type p E G Q regime fuel lo mid
    else
      if E_calc < E then energyLoop type p E G Q regime fuel mid hi
      else energyLoop type p E G Q regime fuel lo mid

/-- The minimum (critical) specific energy `Ec = yc + Vc²/(2g)` computed at the
critical depth returned by `solveCriticalDepth` (lines 116-119). -/
def criticalEnergy (type : ChannelType) (p : InputParams) (unit : UnitSystem) : ℝ :=
  let yc := solveCriticalDepth type p unit
  let geomC := getGeometry type yc p
  let Vc := p.flowRate / geomC.A
  yc + Vc * Vc / (2 * unitG unit)

/-- Energy-branch depth solver, `solveDepthFromEnergy` (lines 114-153): returns the critical depth when the
target energy is below the critical-energy minimum, otherwise bisects on the
branch of the specific-energy curve selected by `regime`. -/
def solveDepthFromEnergy (type : ChannelType) (p : InputParams) (E : ℝ)
    (unit : UnitSystem) (regime : FlowRegime) : ℝ :=
  let yc := solveCriticalDepth type p unit
  let Ec := criticalEnergy type p unit
  if E < Ec then yc
  else
    let lo := if regime = FlowRegime.Supercritical then (0.01 : ℝ) else yc
    let hi := if regime = FlowRegime.Supercritical then yc else max (yc * 5) (E * 1.5)
    energyLoop type p E (unitG unit) p.flowRate regime 50 lo hi

structure CalculationResult where
  normalDepth : ℝ
  criticalDepth : ℝ
  velocity : ℝ
  froudeNumber : ℝ
  flowRegime : FlowRegime
  criticalVelocity : ℝ
  error : Option String

/-- Single-reach classifier `calculateFlow` (lines 482-519): the three validation `throw`s of the
`try` block land in the `catch`, which returns the zeroed result carrying the
thrown message; the success path classifies the regime at normal depth. -/
def calculateFlow (type : ChannelType) (p : InputParams)
    (unit : UnitSystem := UnitSystem.SI) : CalculationResult :=
  if p.slope ≤ 0 ∨ p.manningN ≤ 0 ∨ p.flowRate ≤ 0 then
    ⟨0, 0, 0, 0, FlowRegime.Critical, 0, some "Slope, n, and Q must be positive."⟩
  else if type = ChannelType.Circular ∧ p.diameter ≤ 0 then
    ⟨0, 0, 0, 0, FlowRegime.Critical, 0, some "Diameter must be positive."⟩
  else if type = ChannelType.Rectangular ∧ p.width ≤ 0 then
    ⟨0, 0, 0, 0, FlowRegime.Critical, 0, some "Width must be positive."⟩
  else
    let yn := solveNormalDepth type p unit
    let yc := solveCriticalDepth type p unit
    let geomN := getGeometry type yn p
    let V := p.flowRate / geomN.A
    let D_hyd := geomN.A / geomN.T
    let Fr := V / Real.sqrt (unitG unit * D_hyd)
    let regime :=
      if Fr < 0.99 then FlowRegime.Subcritical
      else if 1.01 < Fr then FlowRegime.Supercritical
      else FlowRegime.Critical
    let geomC := getGeometry type yc p
    let Vc := p.flowRate / geomC.A
    ⟨yn, yc, V, Fr, regime, Vc, none⟩

inductive InputMode
  | SlopeMode
  | ElevationMode
deriving DecidableEq

/-- Reach specification `CanalSectionInput` (the `'Slope' | 'Elevation'` string union becomes
`InputMode`). -/
structure CanalSectionInput where
  length : ℝ
  inputMode : InputMode
  slope : ℝ
  usElevation : ℝ
  dsElevation : ℝ

instance : Inhabited CanalSectionInput :=
  ⟨⟨0, InputMode.SlopeMode, 0, 0, 0⟩⟩

inductive BCLocation
  | Upstream
  | Downstream
deriving DecidableEq

inductive BCType
  | FixedDepth
  | NormalDepth
  | CriticalDepth
deriving DecidableEq

structure BoundaryCondition where
  location : BCLocation
  type : BCType
  value : ℝ

structure ProfilePoint where
  distance : ℝ
  bedElevation : ℝ
  waterElevation : ℝ
  depth : ℝ
  normalDepthElevation : ℝ
  criticalDepthElevation : ℝ
  sectionIndex : ℕ

/-- Lines 177-183: derive the slope from the endpoint elevations for
Elevation-mode sections. -/
def computeSections (sections : List CanalSectionInput) : List CanalSectionInput :=
  sections.map fun s =>
    if s.inputMode = InputMode.ElevationMode then
      { s with slope := (s.usElevation - s.dsElevation) / s.length }
    else s

/-- Lines 188-190: sweep order with original indices (reversed for an
upstream-directed calculation). -/
def processingOrder (cs : List CanalSectionInput) (isUp : Bool) :
    List (CanalSectionInput × ℕ) :=
  if isUp then cs.reverse.enum.map fun q => (q.2, cs.length - 1 - q.1)
  else cs.enum.map fun q => (q.2, q.1)

/-- Lines 222-269: the junction (reach-transition) depth.  Total head of the
previous reach's exit is carried over the bed step; if the required specific
energy is below the new reach's critical-energy minimum the depth chokes to
critical, otherwise the energy solver is called on the branch implied by the
sweep direction. -/
def junctionDepth (type : ChannelType) (baseParams sectionParams : InputParams)
    (unit : UnitSystem) (isUp : Bool) (prevSec currSec : CanalSectionInput)
    (currentDepth : ℝ) : ℝ :=
  let z_prev_end :=
    if isUp then
      (if prevSec.inputMode = InputMode.ElevationMode then prevSec.usElevation else 0)
    else
      (if prevSec.inputMode = InputMode.ElevationMode then prevSec.dsElevation else 0)
  let z_curr_start :=
    if isUp then
      (if currSec.inputMode = InputMode.ElevationMode then currSec.dsElevation else 0)
    else
      (if currSec.inputMode = InputMode.ElevationMode then currSec.usElevation else 0)
  let geomPrev := getGeometry type currentDepth baseParams
  let Vprev := baseParams.flowRate / geomPrev.A
  let E_prev := currentDepth + Vprev * Vprev / (2 * unitG unit)
  let TotalHead := E_prev + z_prev_end
  let E_req := TotalHead - z_curr_start
  let regime := if isUp then FlowRegime.Subcritical else FlowRegime.Supercritical
  let yc_curr := solveCriticalDepth type sectionParams unit
  let geomC := getGeometry type yc_curr sectionParams
  let Vc := baseParams.flowRate / geomC.A
  let Ec := yc_curr + Vc * Vc / (2 * unitG unit)
  if E_req < Ec then yc_curr
  else solveDepthFromEnergy type sectionParams E_req unit regime

/-- The gradually-varied-flow sub-step loop of a single reach (lines 314-357),
iterated over a `List Unit` holding one element per remaining sub-step.
Returns the recorded sub-step points (the reach's start point is pushed by the
caller) and the final value of `y`. -/
def gvfGo (type : ChannelType) (sectionParams baseParams : InputParams)
    (unit : UnitSystem) (dx : ℝ) (idx : ℕ) :
    List Unit → ℝ → ℝ → List ProfilePoint × ℝ
  | [], y, _ => ([], y)
  | _ :: rest, y, x_local =>
    if y ≤ 0 then ([], y)
    else
      let geom := getGeometry type y sectionParams
      if geom.A = 0 ∨ geom.T = 0 then ([], y)
      else
        let V := baseParams.flowRate / geom.A
        let R := if 0 < geom.P then geom.A / geom.P else 0
        let Dh := geom.A / geom.T
        let Sf := (sectionParams.manningN * V / (unitK unit * R ^ ((2 : ℝ) / 3))) ^ 2
        let Fr2 := V ^ 2 / (unitG unit * Dh)
        let numerator := sectionParams.slope - Sf
        let denominator := 1 - Fr2
        let dydx := numerator / denominator
        let y1 := y + dydx * dx
        let x1 := x_local + dx
        let y2 := if y1 ≤ 0 then (0.01 : ℝ) else y1
        let y3 := if 100 < y2 then (100 : ℝ) else y2
        let r := gvfGo type sectionParams baseParams unit dx idx rest y3 x1
        (⟨x1, 0, 0, y3, 0, 0, idx⟩ :: r.1, r.2)

/-- The main reach loop (lines 202-368): entry depth from the boundary
condition for the first processed reach and from `junctionDepth` afterwards,
then the sub-step integration, storing each reach's points (reversed for an
upstream sweep) and carrying the exit depth forward. -/
def processSections (type : ChannelType) (baseParams : InputParams)
    (bc : BoundaryCondition) (unit : UnitSystem) (isUp : Bool)
    (stepPerSection : ℕ) :
    List (CanalSectionInput × ℕ) → Option CanalSectionInput → ℝ → List ProfilePoint
  | [], _, _ => []
  | (s, originalIdx) :: rest, prev, depthIn =>
    let sectionParams := { baseParams with slope := s.slope }
    let yn := solveNormalDepth type sectionParams unit
    let yc := solveCriticalDepth type sectionParams unit
    let currentDepth :=
      match prev with
      | none =>
        match bc.type with
        | BCType.NormalDepth => yn
        | BCType.CriticalDepth => yc
        | BCType.FixedDepth => bc.value
      | some prevSec => junctionDepth type baseParams sectionParams unit isUp prevSec s depthIn
    let dx := s.length / (stepPerSection : ℝ) * (if isUp then -1 else 1)
    let x0 := if isUp then s.length else (0 : ℝ)
    let startPt : ProfilePoint := ⟨x0, 0, 0, currentDepth, 0, 0, originalIdx⟩
    let run := gvfGo type sectionParams baseParams unit dx originalIdx
        (List.replicate stepPerSection ()) currentDepth x0
    let sectionPoints := startPt :: run.1
    let stored := if isUp then sectionPoints.reverse else sectionPoints
    stored ++ processSections type baseParams bc unit isUp stepPerSection rest (some s) run.2

/-- Lines 396-401: write each Elevation-mode reach's endpoint elevations into
the node array (`forEach` with `set`s on an all-`null` array). -/
def zFillKnowns (cs : List CanalSectionInput) : List (Option ℝ) :=
  cs.enum.foldl
    (fun z si =>
      if si.2.inputMode = InputMode.ElevationMode then
        (z.set si.1 (some si.2.usElevation)).set (si.1 + 1) (some si.2.dsElevation)
      else z)
    (List.replicate (cs.length + 1) none)

/-- Line 404: `if (z_nodes[0] === null) z_nodes[0] = 100;` -/
def zAnchor (z : List (Option ℝ)) : List (Option ℝ) :=
  if z.getD 0 none = none then z.set 0 (some 100) else z

/-- Lines 405-410: the forward fill `z[i+1] = z[i] − slope·length` for
still-unknown nodes. -/
def zForward (cs : List CanalSectionInput) (z0 : List (Option ℝ)) : List (Option ℝ) :=
  (List.range cs.length).foldl
    (fun z i =>
      if z.getD (i + 1) none = none then
        z.set (i + 1)
          (some ((z.getD i none).getD 0 -
            (cs.getD i default).slope * (cs.getD i default).length))
      else z)
    z0

/-- Lines 417-421: the backward fill `z[i] = z[i+1] + slope·length` for nodes
still unknown whose successor is known. -/
def zBackward (cs : List CanalSectionInput) (z0 : List (Option ℝ)) : List (Option ℝ) :=
  (List.range cs.length).reverse.foldl
    (fun z i =>
      if z.getD i none = none ∧ z.getD (i + 1) none ≠ none then
        z.set i
          (some ((z.getD (i + 1) none).getD 0 +
            (cs.getD i default).slope * (cs.getD i default).length))
      else z)
    z0

/-- The complete per-node bed-elevation reconciliation (lines 393-421). -/
def zNodes (cs : List CanalSectionInput) : List (Option ℝ) :=
  zBackward cs (zForward cs (zAnchor (zFillKnowns cs)))

/-- Lines 378-383: global chainage offset of each section (cumulative sum of
the previous lengths in original order). -/
def sectionStartDist (cs : List CanalSectionInput) : List ℝ :=
  ((cs.map (·.length)).scanl (· + ·) 0).take cs.length

/-- Lines 423-456: group the recorded points by section and map them to global
chainage and absolute elevations. -/
def buildFinalPoints (type : ChannelType) (baseParams : InputParams)
    (unit : UnitSystem) (cs : List CanalSectionInput)
    (allPoints : List ProfilePoint) : List ProfilePoint :=
  (List.range cs.length).flatMap fun i =>
    let s := cs.getD i default
    let pts := allPoints.filter fun q => q.sectionIndex == i
    let startX := (sectionStartDist cs).getD i 0
    let startZ := ((zNodes cs).getD i none).getD 0
    let yn := solveNormalDepth type { baseParams with slope := s.slope } unit
    let yc := solveCriticalDepth type { baseParams with slope := s.slope } unit
    pts.map fun q =>
      let globalX := startX + q.distance
      let bedZ := startZ - s.slope * q.distance
      ⟨globalX, bedZ, bedZ + q.depth, q.depth, bedZ + yn, bedZ + yc, i⟩

/-- Profile engine `calculateMultiReachProfile` (lines 158-459): direction from the boundary
condition, per-reach standard-step integration, junction energy balance, bed
elevation reconciliation, and a final sort by global distance. -/
def calculateMultiReachProfile (type : ChannelType) (baseParams : InputParams)
    (sections : List CanalSectionInput) (bc : BoundaryCondition)
    (unit : UnitSystem) (stepPerSection : ℕ := 20) : List ProfilePoint :=
  let isUp : Bool := bc.location = BCLocation.Downstream
  let cs := computeSections sections
  let order := processingOrder cs isUp
  let allPoints := processSections type baseParams bc unit isUp stepPerSection order none bc.value
  let finalPoints := buildFinalPoints type baseParams unit cs allPoints
  finalPoints.mergeSort fun a b => decide (a.distance ≤ b.distance)

/-! ## Auxiliary lemmas about the bisection loops -/

/-- The normal-depth bisection loop never leaves its bracket. -/
theorem normalLoop_mem (type : ChannelType) (p : InputParams) (target : ℝ) :
    ∀ (fuel : ℕ) (lo hi : ℝ), lo ≤ hi →
      lo ≤ normalLoop type p target fuel lo hi ∧ normalLoop type p target fuel lo hi ≤ hi := by
  intro fuel
  induction fuel with
  | zero =>
    intro lo hi h
    constructor <;> (simp only [normalLoop]; linarith)
  | succ n ih =>
    intro lo hi h
    have h1 : lo ≤ (lo + hi) / 2 := by linarith
    have h2 : (lo + hi) / 2 ≤ hi := by linarith
    simp only [normalLoop]
    split_ifs with hP he hv
    · exact ⟨le_trans h1 (ih _ _ h2).1, (ih _ _ h2).2⟩
    · exact ⟨h1, h2⟩
    · exact ⟨le_trans h1 (ih _ _ h2).1, (ih _ _ h2).2⟩
    · exact ⟨(ih _ _ h1).1, le_trans (ih _ _ h1).2 h2⟩

/-- The critical-depth bisection loop never leaves its bracket. -/
theorem criticalLoop_mem (type : ChannelType) (p : InputParams) (Q2 G : ℝ) :
    ∀ (fuel : ℕ) (lo hi : ℝ), lo ≤ hi →
      lo ≤ criticalLoop type p Q2 G fuel lo hi ∧ criticalLoop type p Q2 G fuel lo hi ≤ hi := by
  intro fuel
  induction fuel with
  | zero =>
    intro lo hi h
    constructor <;> (simp only [criticalLoop]; linarith)
  | succ n ih =>
    intro lo hi h
    have h1 : lo ≤ (lo + hi) / 2 := by linarith
    have h2 : (lo + hi) / 2 ≤ hi := by linarith
    simp only [criticalLoop]
    split_ifs with he hv
    · exact ⟨h1, h2⟩
    · exact ⟨le_trans h1 (ih _ _ h2).1, (ih _ _ h2).2⟩
    · exact ⟨(ih _ _ h1).1, le_trans (ih _ _ h1).2 h2⟩

/-- Monotonicity of the normal-depth bisection loop in its target value:
a larger target value never produces a smaller returned depth. -/
theorem normalLoop_mono (type : ChannelType) (p : InputParams) (t1 t2 : ℝ)
    (h12 : t1 ≤ t2) :
    ∀ (fuel : ℕ) (lo hi : ℝ), lo ≤ hi →
      normalLoop type p t1 fuel lo hi ≤ normalLoop type p t2 fuel lo hi := by
  intro fuel
  induction fuel with
  | zero => intro lo hi h; simp only [normalLoop]; exact le_refl _
  | succ n ih =>
    intro lo hi h
    have h1 : lo ≤ (lo + hi) / 2 := by linarith
    have h2 : (lo + hi) / 2 ≤ hi := by linarith
    have hT : (0 : ℝ) < TOLERANCE := by norm_num [TOLERANCE]
    simp only [normalLoop]
    set m := (lo + hi) / 2 with hm
    set g := getGeometry type m p with hgdef
    set v := g.A * (g.A / g.P) ^ ((2 : ℝ) / 3) with hvdef
    by_cases hP : g.P = 0
    · rw [if_pos hP, if_pos hP]
      exact ih _ _ h2
    · rw [if_neg hP, if_neg hP]
      by_cases he1 : |v - t1| < TOLERANCE
      · rw [if_pos he1]
        by_cases he2 : |v - t2| < TOLERANCE
        · rw [if_pos he2]
        · rw [if_neg he2]
          have hvlt : v < t2 := by
            rw [abs_sub_lt_iff] at he1
            rw [abs_sub_lt_iff, not_and_or, not_lt, not_lt] at he2
            rcases he2 with hc | hc <;> linarith
          rw [if_pos hvlt]
          exact (normalLoop_mem type p t2 n _ _ h2).1
      · rw [if_neg he1]
        by_cases hv1 : v < t1
        · rw [if_pos hv1]
          have he2 : ¬ |v - t2| < TOLERANCE := by
            intro hc
            rw [abs_sub_lt_iff] at hc
            rw [abs_sub_lt_iff, not_and_or, not_lt, not_lt] at he1
            rcases he1 with hc1 | hc1 <;> linarith
          rw [if_neg he2, if_pos (lt_of_lt_of_le hv1 h12)]
          exact ih _ _ h2
        · rw [if_neg hv1]
          by_cases he2 : |v - t2| < TOLERANCE
          · rw [if_pos he2]
            exact (normalLoop_mem type p t1 n _ _ h1).2
          · rw [if_neg he2]
            by_cases hv2 : v < t2
            · rw [if_pos hv2]
              exact le_trans (normalLoop_mem type p t1 n _ _ h1).2
                (normalLoop_mem type p t2 n _ _ h2).1
            · rw [if_neg hv2]
              exact ih _ _ h1

/-- Geometry does not read the Manning roughness. -/
theorem getGeometry_manningN (type : ChannelType) (y : ℝ) (p : InputParams) (c : ℝ) :
    getGeometry type y { p with manningN := c } = getGeometry type y p := by
  cases type <;> rfl

/-- The loop `normalLoop` reads the parameter record only through `getGeometry`,
so it ignores the Manning roughness. -/
theorem normalLoop_manningN (type : ChannelType) (p : InputParams) (c target : ℝ) :
    ∀ (fuel : ℕ) (lo hi : ℝ),
      normalLoop type { p with manningN := c } target fuel lo hi =
        normalLoop type p target fuel lo hi := by
  intro fuel
  induction fuel with
  | zero => intro lo hi; simp only [normalLoop]
  | succ n ih =>
    intro lo hi
    simp only [normalLoop, getGeometry_manningN, ih]

/-! ## Claim theorems -/

/-- C7: for every channel shape, every parameter record and every depth
`y ≤ 0`, `getGeometry` returns the zero geometry
`{area 0, wetted perimeter 0, top width 0, centroid depth 0}`. -/
theorem c7_zero_geometry (type : ChannelType) (y : ℝ) (p : InputParams)
    (h : y ≤ 0) : getGeometry type y p = ⟨0, 0, 0, 0⟩ := by
  simp [getGeometry, h]

theorem c7_zero_geometry_witness :
    (-1 : ℝ) ≤ 0 ∧
      getGeometry ChannelType.Trapezoidal (-1) ⟨10, 0.001, 0.013, 3, 2, 0⟩ = ⟨0, 0, 0, 0⟩ :=
  ⟨by norm_num, c7_zero_geometry ChannelType.Trapezoidal (-1) ⟨10, 0.001, 0.013, 3, 2, 0⟩ (by norm_num)⟩

/-- C6: whenever the discharge, roughness or slope is non-positive, or the
diameter is non-positive for a circular channel, or the width is non-positive
for a rectangular channel, `calculateFlow` returns (instead of throwing) a
result whose error field holds a descriptive message and whose numeric fields
`normalDepth`, `criticalDepth`, `velocity`, `froudeNumber`, `criticalVelocity`
are all zero. -/
theorem c6_validation (type : ChannelType) (p : InputParams) (unit : UnitSystem)
    (h : p.slope ≤ 0 ∨ p.manningN ≤ 0 ∨ p.flowRate ≤ 0 ∨
      (type = ChannelType.Circular ∧ p.diameter ≤ 0) ∨
      (type = ChannelType.Rectangular ∧ p.width ≤ 0)) :
    ∃ msg : String, calculateFlow type p unit =
      ⟨0, 0, 0, 0, FlowRegime.Critical, 0, some msg⟩ := by
  by_cases h1 : p.slope ≤ 0 ∨ p.manningN ≤ 0 ∨ p.flowRate ≤ 0
  · exact ⟨_, by unfold calculateFlow; rw [if_pos h1]⟩
  · have h' : (type = ChannelType.Circular ∧ p.diameter ≤ 0) ∨
        (type = ChannelType.Rectangular ∧ p.width ≤ 0) := by tauto
    rcases h' with h2 | h3
    · exact ⟨_, by unfold calculateFlow; rw [if_neg h1, if_pos h2]⟩
    · have h2 : ¬ (type = ChannelType.Circular ∧ p.diameter ≤ 0) := by
        rintro ⟨hc, -⟩
        rw [h3.1] at hc
        exact ChannelType.noConfusion hc
      exact ⟨_, by unfold calculateFlow; rw [if_neg h1, if_neg h2, if_pos h3]⟩

theorem c6_validation_witness :
    ((-0.5 : ℝ) ≤ 0 ∨ (0.013 : ℝ) ≤ 0 ∨ (10 : ℝ) ≤ 0 ∨
      (ChannelType.Rectangular = ChannelType.Circular ∧ (0 : ℝ) ≤ 0) ∨
      (ChannelType.Rectangular = ChannelType.Rectangular ∧ (5 : ℝ) ≤ 0)) ∧
    ∃ msg : String,
      calculateFlow ChannelType.Rectangular ⟨10, -0.5, 0.013, 5, 0, 0⟩ UnitSystem.SI =
        ⟨0, 0, 0, 0, FlowRegime.Critical, 0, some msg⟩ :=
  ⟨Or.inl (by norm_num),
    c6_validation ChannelType.Rectangular ⟨10, -0.5, 0.013, 5, 0, 0⟩ UnitSystem.SI
      (Or.inl (by norm_num))⟩

/-- C10: whenever `calculateFlow` returns with the error field set (the
validation-failure path), the `flowRegime` field is the same literal
`Critical` that the success path uses for genuinely critical flow; no distinct
sentinel regime marks the error path. -/
theorem c10_error_regime (type : ChannelType) (p : InputParams) (unit : UnitSystem)
    (h : (calculateFlow type p unit).error.isSome) :
    (calculateFlow type p unit).flowRegime = FlowRegime.Critical := by
  unfold calculateFlow at h ⊢
  split_ifs at h ⊢ <;> simp_all

theorem c10_error_regime_witness :
    (calculateFlow ChannelType.Circular ⟨2, 0.002, 0.013, 0, 0, -1⟩ UnitSystem.SI).error.isSome ∧
    (calculateFlow ChannelType.Circular ⟨2, 0.002, 0.013, 0, 0, -1⟩ UnitSystem.SI).flowRegime =
      FlowRegime.Critical := by
  have hs : (calculateFlow ChannelType.Circular ⟨2, 0.002, 0.013, 0, 0, -1⟩ UnitSystem.SI).error.isSome := by
    unfold calculateFlow
    norm_num
  exact ⟨hs, c10_error_regime ChannelType.Circular ⟨2, 0.002, 0.013, 0, 0, -1⟩ UnitSystem.SI hs⟩

/-- Triangular geometry with a zero side slope has zero area and zero top
width at every depth. -/
theorem triangular_degenerate_geometry (p : InputParams) (hz : p.sideSlope = 0) (y : ℝ) :
    (getGeometry ChannelType.Triangular y p).A = 0 ∧
      (getGeometry ChannelType.Triangular y p).T = 0 := by
  unfold getGeometry
  split_ifs with h
  · exact ⟨rfl, rfl⟩
  · simp [hz]

/-- C9: `calculateFlow` validates only discharge, slope and roughness for a
triangular channel, so for `sideSlope = 0` and positive discharge, slope and
roughness it returns with no error string set, while the geometry at the
solved normal depth has zero area and zero top width: the recorded velocity is
the division `Q / 0` and the Froude number divides by `√(g·(0/0))`, which in
the IEEE-754 arithmetic of the source are `Infinity` and `NaN` — neither
zeroed nor reported as an error. -/
theorem c9_triangular_degenerate (p : InputParams) (unit : UnitSystem)
    (hz : p.sideSlope = 0) (hQ : 0 < p.flowRate) (hS : 0 < p.slope)
    (hn : 0 < p.manningN) :
    (calculateFlow ChannelType.Triangular p unit).error = none ∧
    (getGeometry ChannelType.Triangular (solveNormalDepth ChannelType.Triangular p unit) p).A = 0 ∧
    (getGeometry ChannelType.Triangular (solveNormalDepth ChannelType.Triangular p unit) p).T = 0 := by
  refine ⟨?_, (triangular_degenerate_geometry p hz _).1, (triangular_degenerate_geometry p hz _).2⟩
  have h1 : ¬ (p.slope ≤ 0 ∨ p.manningN ≤ 0 ∨ p.flowRate ≤ 0) := by
    push_neg
    exact ⟨hS, hn, hQ⟩
  have h2 : ¬ (ChannelType.Triangular = ChannelType.Circular ∧ p.diameter ≤ 0) := by
    rintro ⟨hc, -⟩
    exact ChannelType.noConfusion hc
  have h3 : ¬ (ChannelType.Triangular = ChannelType.Rectangular ∧ p.width ≤ 0) := by
    rintro ⟨hc, -⟩
    exact ChannelType.noConfusion hc
  unfold calculateFlow
  rw [if_neg h1, if_neg h2, if_neg h3]

theorem c9_triangular_degenerate_witness :
    ((0.013 : ℝ) > 0 ∧ (0.005 : ℝ) > 0 ∧ (5 : ℝ) > 0) ∧
    (calculateFlow ChannelType.Triangular ⟨5, 0.005, 0.013, 0, 0, 0⟩ UnitSystem.SI).error = none ∧
    (getGeometry ChannelType.Triangular
      (solveNormalDepth ChannelType.Triangular ⟨5, 0.005, 0.013, 0, 0, 0⟩ UnitSystem.SI)
      ⟨5, 0.005, 0.013, 0, 0, 0⟩).A = 0 ∧
    (getGeometry ChannelType.Triangular
      (solveNormalDepth ChannelType.Triangular ⟨5, 0.005, 0.013, 0, 0, 0⟩ UnitSystem.SI)
      ⟨5, 0.005, 0.013, 0, 0, 0⟩).T = 0 :=
  ⟨⟨by norm_num, by norm_num, by norm_num⟩,
    c9_triangular_degenerate ⟨5, 0.005, 0.013, 0, 0, 0⟩ UnitSystem.SI rfl
      (by norm_num) (by norm_num) (by norm_num)⟩

/-- C5: for every input, the `ProfilePoint` sequence returned by
`calculateMultiReachProfile` is sorted by global distance: `distance` is
non-decreasing from the first point to the last after final assembly. -/
theorem c5_sorted (type : ChannelType) (baseParams : InputParams)
    (sections : List CanalSectionInput) (bc : BoundaryCondition)
    (unit : UnitSystem) (stepPerSection : ℕ) :
    (calculateMultiReachProfile type baseParams sections bc unit stepPerSection).Pairwise
      (fun a b => a.distance ≤ b.distance) := by
  unfold calculateMultiReachProfile
  refine List.Pairwise.imp ?_ (List.sorted_mergeSort ?_ ?_ _)
  · intro a b hab
    exact of_decide_eq_true hab
  · intro a b c hab hbc
    simp only [decide_eq_true_eq] at *
    exact le_trans hab hbc
  · intro a b
    simp only [Bool.or_eq_true, decide_eq_true_eq]
    exact le_total _ _

/-- C2 (amended): for every shape and every input whose circular diameter is
non-negative, the depth returned by `solveNormalDepth` lies inside the fixed
bisection bracket — `[0, diameter]` for circular channels and `[0, 50]`
otherwise.  The original claim's universal 1e-4 back-substitution guarantee
fails precisely because this bracket is fixed: a discharge whose normal depth
is not attainable inside the bracket cannot be reproduced (the known
limitation of spec §9), see the counterexample. -/
theorem c2_bracket (type : ChannelType) (p : InputParams) (unit : UnitSystem)
    (hD : type = ChannelType.Circular → 0 ≤ p.diameter) :
    0 ≤ solveNormalDepth type p unit ∧
      solveNormalDepth type p unit ≤
        (if type = ChannelType.Circular then p.diameter else 50) := by
  have hhi : (0 : ℝ) ≤ (if type = ChannelType.Circular then p.diameter else 50) := by
    split_ifs with h
    · exact hD h
    · norm_num
  exact normalLoop_mem type p _ MAX_ITER 0 _ hhi

theorem c2_bracket_witness :
    0 ≤ solveNormalDepth ChannelType.Rectangular ⟨10, 0.001, 0.013, 5, 0, 0⟩ UnitSystem.SI ∧
      solveNormalDepth ChannelType.Rectangular ⟨10, 0.001, 0.013, 5, 0, 0⟩ UnitSystem.SI ≤ 50 := by
  have h := c2_bracket ChannelType.Rectangular ⟨10, 0.001, 0.013, 5, 0, 0⟩ UnitSystem.SI
    (fun hc => ChannelType.noConfusion hc)
  simpa using h

/-- The Manning back-substitution discharge of the spec's testable property
(§8): `Q' = (k/n)·A·R^(2/3)·√S` evaluated at a given depth.  Modelled from the
spec: the source does not re-evaluate Manning's equation after solving, so
this is the claim's own checking formula. -/
def manningDischarge (type : ChannelType) (p : InputParams) (unit : UnitSystem)
    (y : ℝ) : ℝ :=
  let geom := getGeometry type y p
  unitK unit / p.manningN * geom.A * (geom.A / geom.P) ^ ((2 : ℝ) / 3) *
    Real.sqrt p.slope

/-- C3: the energy-branch solver and the junction logic of the profile engine.
First conjunct: whenever the requested specific energy is below the critical
minimum `Ec`, `solveDepthFromEnergy` returns the critical depth (choke).
Second conjunct: at a reach junction the entry depth equals the choke/solve
alternative applied to the required energy obtained from the total-head
balance `E_req = E_prev + z_prev_end − z_curr_start`, with the energy branch
chosen by the sweep direction (`Subcritical` for an upstream sweep driven by a
downstream control, `Supercritical` otherwise). -/
theorem c3_choke :
    (∀ (type : ChannelType) (p : InputParams) (E : ℝ) (unit : UnitSystem)
        (regime : FlowRegime),
      E < criticalEnergy type p unit →
        solveDepthFromEnergy type p E unit regime = solveCriticalDepth type p unit) ∧
    (∀ (type : ChannelType) (baseParams : InputParams) (s' : ℝ) (unit : UnitSystem)
        (isUp : Bool) (prevSec currSec : CanalSectionInput) (d : ℝ),
      junctionDepth type baseParams { baseParams with slope := s' } unit isUp
          prevSec currSec d =
        (let Vprev := baseParams.flowRate / (getGeometry type d baseParams).A
         let E_req := d + Vprev * Vprev / (2 * unitG unit) +
            (if isUp then
              (if prevSec.inputMode = InputMode.ElevationMode then prevSec.usElevation else 0)
             else
              (if prevSec.inputMode = InputMode.ElevationMode then prevSec.dsElevation else 0)) -
            (if isUp then
              (if currSec.inputMode = InputMode.ElevationMode then currSec.dsElevation else 0)
             else
              (if currSec.inputMode = InputMode.ElevationMode then currSec.usElevation else 0))
         if E_req < criticalEnergy type { baseParams with slope := s' } unit then
           solveCriticalDepth type { baseParams with slope := s' } unit
         else
           solveDepthFromEnergy type { baseParams with slope := s' } E_req unit
             (if isUp then FlowRegime.Subcritical else FlowRegime.Supercritical))) := by
  constructor
  · intro type p E unit regime hE
    unfold solveDepthFromEnergy
    rw [if_pos hE]
  · intro type baseParams s' unit isUp prevSec currSec d
    unfold junctionDepth criticalEnergy
    rfl

theorem c3_choke_witness :
    (-1 : ℝ) < criticalEnergy ChannelType.Rectangular ⟨10, 0.001, 0.013, 5, 0, 0⟩ UnitSystem.SI ∧
    solveDepthFromEnergy ChannelType.Rectangular ⟨10, 0.001, 0.013, 5, 0, 0⟩ (-1)
        UnitSystem.SI FlowRegime.Subcritical =
      solveCriticalDepth ChannelType.Rectangular ⟨10, 0.001, 0.013, 5, 0, 0⟩ UnitSystem.SI := by
  have hyc : 0 ≤ solveCriticalDepth ChannelType.Rectangular ⟨10, 0.001, 0.013, 5, 0, 0⟩
      UnitSystem.SI := by
    have := criticalLoop_mem ChannelType.Rectangular ⟨10, 0.001, 0.013, 5, 0, 0⟩
      ((10 : ℝ) ^ 2) (unitG UnitSystem.SI) MAX_ITER 0 50 (by norm_num)
    simpa [solveCriticalDepth] using this.1
  have hEc : (-1 : ℝ) < criticalEnergy ChannelType.Rectangular ⟨10, 0.001, 0.013, 5, 0, 0⟩
      UnitSystem.SI := by
    unfold criticalEnergy
    have hsq : 0 ≤ (10 : ℝ) / (getGeometry ChannelType.Rectangular
        (solveCriticalDepth ChannelType.Rectangular ⟨10, 0.001, 0.013, 5, 0, 0⟩ UnitSystem.SI)
        ⟨10, 0.001, 0.013, 5, 0, 0⟩).A *
        ((10 : ℝ) / (getGeometry ChannelType.Rectangular
        (solveCriticalDepth ChannelType.Rectangular ⟨10, 0.001, 0.013, 5, 0, 0⟩ UnitSystem.SI)
        ⟨10, 0.001, 0.013, 5, 0, 0⟩).A) := mul_self_nonneg _
    have hG : (0 : ℝ) < 2 * unitG UnitSystem.SI := by norm_num [unitG]
    have := div_nonneg hsq (le_of_lt hG)
    dsimp only
    nlinarith
  exact ⟨hEc, c3_choke.1 ChannelType.Rectangular ⟨10, 0.001, 0.013, 5, 0, 0⟩ (-1)
    UnitSystem.SI FlowRegime.Subcritical hEc⟩

/-- C1 (code bug): with a Slope-mode first reach followed by an
Elevation-mode reach, the reconciliation anchors node 0 to the arbitrary
datum `100` even though elevation data exists, because line 404 anchors
whenever `z_nodes[0]` is null — not only when no elevation data exists
anywhere — and the forward pass then leaves nothing for the backward pass,
which can never fire.  The claimed (and code-commented: "Arbitrary datum if
completely unknown", "What if Slope mode precedes Elevation mode? (Backward
pass)") behaviour would give `z₀ = z₁ + slope·length = 50 + 0.001·100 = 50.1`,
but the code yields `100`. -/
theorem c1_backfill_bug :
    zNodes (computeSections
      [⟨100, InputMode.SlopeMode, 1 / 1000, 0, 0⟩,
       ⟨100, InputMode.ElevationMode, 0, 50, 40⟩]) =
      [some 100, some 50, some 40] ∧
    (100 : ℝ) ≠ 50 + 1 / 1000 * 100 := by
  constructor
  · simp [zNodes, computeSections, zFillKnowns, zAnchor, zForward, zBackward,
      List.enum, List.enumFrom, List.range, List.range.loop, List.set, List.getD,
      List.get?, List.foldl]
  · norm_num

/-- C2 (counterexample): a rectangular channel of width 5 with
`Q = 10⁶`, `S = 10⁻⁴`, `n = 0.013` (all valid inputs) has a normal depth far
beyond the solver's fixed `[0, 50]` bracket; whatever depth the bisection
returns lies in `[0, 50]`, where the Manning back-substitution can produce at
most `(1000/13)·250·2.5/100 < 500`, so the recomputed discharge misses the
target `10⁶` by far more than the claimed `1e-4` relative error. -/
theorem c2_counterexample :
    (0 : ℝ) < 1000000 ∧ (0 : ℝ) < 1 / 10000 ∧ (0 : ℝ) < 13 / 1000 ∧ (0 : ℝ) < 5 ∧
    ¬ (|manningDischarge ChannelType.Rectangular ⟨1000000, 1 / 10000, 13 / 1000, 5, 0, 0⟩
          UnitSystem.SI
          (solveNormalDepth ChannelType.Rectangular ⟨1000000, 1 / 10000, 13 / 1000, 5, 0, 0⟩
            UnitSystem.SI) - 1000000| ≤ 1e-4 * 1000000) := by
  refine ⟨by norm_num, by norm_num, by norm_num, by norm_num, ?_⟩
  set Y := solveNormalDepth ChannelType.Rectangular ⟨1000000, 1 / 10000, 13 / 1000, 5, 0, 0⟩
    UnitSystem.SI with hY
  have hyb : 0 ≤ Y ∧ Y ≤ 50 := by
    rw [hY]
    unfold solveNormalDepth
    rw [if_neg (fun hc => ChannelType.noConfusion hc)]
    exact normalLoop_mem _ _ _ MAX_ITER 0 50 (by norm_num)
  have hsqrt : Real.sqrt (1 / 10000) = 1 / 100 := by
    rw [show (1 / 10000 : ℝ) = (1 / 100) ^ 2 by norm_num, Real.sqrt_sq (by norm_num)]
  have key : manningDischarge ChannelType.Rectangular ⟨1000000, 1 / 10000, 13 / 1000, 5, 0, 0⟩
      UnitSystem.SI Y ≤ 500 := by
    unfold manningDischarge
    rcases le_or_lt Y 0 with h0 | h0
    · simp [getGeometry, if_pos h0]
    · simp only [getGeometry, if_neg (not_le.2 h0), hsqrt]
      have hK : unitK UnitSystem.SI = 1 := by norm_num [unitK]
      rw [hK]
      have hP : (0 : ℝ) < 5 + 2 * Y := by linarith
      have hA0 : (0 : ℝ) ≤ 5 * Y := by linarith
      have hA : (5 : ℝ) * Y ≤ 250 := by linarith [hyb.2]
      have hR0 : (0 : ℝ) ≤ 5 * Y / (5 + 2 * Y) := div_nonneg hA0 hP.le
      have hR : 5 * Y / (5 + 2 * Y) ≤ 5 / 2 := by
        rw [div_le_iff₀ hP]
        nlinarith
      have hR23 : (5 * Y / (5 + 2 * Y)) ^ ((2 : ℝ) / 3) ≤ 5 / 2 := by
        rcases le_or_lt (5 * Y / (5 + 2 * Y)) 1 with h1 | h1
        · exact le_trans (Real.rpow_le_one hR0 h1 (by norm_num)) (by norm_num)
        · calc (5 * Y / (5 + 2 * Y)) ^ ((2 : ℝ) / 3)
              ≤ (5 * Y / (5 + 2 * Y)) ^ (1 : ℝ) :=
                Real.rpow_le_rpow_of_exponent_le h1.le (by norm_num)
            _ = 5 * Y / (5 + 2 * Y) := Real.rpow_one _
            _ ≤ 5 / 2 := hR
      have hR23nn : (0 : ℝ) ≤ (5 * Y / (5 + 2 * Y)) ^ ((2 : ℝ) / 3) :=
        Real.rpow_nonneg hR0 _
      calc 1 / (13 / 1000) * (5 * Y) * (5 * Y / (5 + 2 * Y)) ^ ((2 : ℝ) / 3) * (1 / 100)
          ≤ 1 / (13 / 1000) * 250 * (5 / 2) * (1 / 100) := by gcongr
        _ ≤ 500 := by norm_num
  intro habs
  rw [abs_le] at habs
  have h1 := habs.1
  norm_num at h1
  linarith [key]

/-- Tight rational bounds on `(25/11)^(2/3)`, the hydraulic-radius power at the
first bisection midpoint of a width-5 rectangular channel. -/
theorem rpow23_25_11_bounds :
    (17286147548 / 10 ^ 10 : ℝ) < (25 / 11 : ℝ) ^ ((2 : ℝ) / 3) ∧
    (25 / 11 : ℝ) ^ ((2 : ℝ) / 3) < (17286147550 / 10 ^ 10 : ℝ) := by
  have hc0 : (0 : ℝ) ≤ (25 / 11 : ℝ) ^ ((2 : ℝ) / 3) := Real.rpow_nonneg (by norm_num) _
  have hc3 : ((25 / 11 : ℝ) ^ ((2 : ℝ) / 3)) ^ (3 : ℕ) = (625 / 121 : ℝ) := by
    rw [← Real.rpow_natCast ((25 / 11 : ℝ) ^ ((2 : ℝ) / 3)) 3,
      ← Real.rpow_mul (by norm_num : (0 : ℝ) ≤ 25 / 11)]
    rw [show ((2 : ℝ) / 3 * ((3 : ℕ) : ℝ)) = ((2 : ℕ) : ℝ) by norm_num, Real.rpow_natCast]
    norm_num
  constructor
  · by_contra hle
    push_neg at hle
    have h3 := pow_le_pow_left₀ hc0 hle 3
    rw [hc3] at h3
    norm_num at h3
  · by_contra hle
    push_neg at hle
    have h3 := pow_le_pow_left₀ (by norm_num : (0 : ℝ) ≤ 17286147550 / 10 ^ 10) hle 3
    rw [hc3] at h3
    norm_num at h3

/-- One unfolding step of the normal-depth bisection loop. -/
theorem normalLoop_succ (type : ChannelType) (p : InputParams) (target : ℝ)
    (fuel : ℕ) (lo hi : ℝ) :
    normalLoop type p target (fuel + 1) lo hi =
      (let mid := (lo + hi) / 2
       let geom := getGeometry type mid p
       if geom.P = 0 then normalLoop type p target fuel mid hi
       else
         let R := geom.A / geom.P
         let val := geom.A * R ^ ((2 : ℝ) / 3)
         if |val - target| < TOLERANCE then mid
         else if val < target then normalLoop type p target fuel mid hi
         else normalLoop type p target fuel lo mid) := rfl

/-- For a width-5 rectangular channel with `Q = 1`, `S = 1` in SI units, a
Manning roughness within the 1e-6 tolerance of the first midpoint's conveyance
makes the bisection exit on its very first iteration at depth 25. -/
theorem rect5_first_exit (n : ℝ)
    (h : |125 * (25 / 11 : ℝ) ^ ((2 : ℝ) / 3) - n| < TOLERANCE) :
    solveNormalDepth ChannelType.Rectangular ⟨1, 1, n, 5, 0, 0⟩ UnitSystem.SI = 25 := by
  unfold solveNormalDepth
  rw [if_neg (fun hc => ChannelType.noConfusion hc)]
  rw [show MAX_ITER = 99 + 1 from rfl, normalLoop_succ]
  have hg : getGeometry ChannelType.Rectangular (((0 : ℝ) + 50) / 2) ⟨1, 1, n, 5, 0, 0⟩ =
      ⟨125, 55, 5, 25 / 2⟩ := by
    norm_num [getGeometry]
  simp only [hg]
  norm_num [unitK, Real.sqrt_one, h]

/-- C8 (counterexample to strictness): two distinct positive roughness values
close enough that both targets fall within the bisection's 1e-6 early-exit
tolerance at the first midpoint give the *same* normal depth 25, so the
claimed strict increase fails. -/
theorem c8_counterexample :
    (0 : ℝ) < 2160768438625 / 10 ^ 10 ∧
    (2160768438625 / 10 ^ 10 : ℝ) < 2160768448625 / 10 ^ 10 ∧
    solveNormalDepth ChannelType.Rectangular ⟨1, 1, 2160768438625 / 10 ^ 10, 5, 0, 0⟩
        UnitSystem.SI = 25 ∧
    solveNormalDepth ChannelType.Rectangular ⟨1, 1, 2160768448625 / 10 ^ 10, 5, 0, 0⟩
        UnitSystem.SI = 25 ∧
    ¬ (solveNormalDepth ChannelType.Rectangular ⟨1, 1, 2160768438625 / 10 ^ 10, 5, 0, 0⟩
          UnitSystem.SI <
        solveNormalDepth ChannelType.Rectangular ⟨1, 1, 2160768448625 / 10 ^ 10, 5, 0, 0⟩
          UnitSystem.SI) := by
  have hb := rpow23_25_11_bounds
  have hT : TOLERANCE = 1 / 1000000 := by norm_num [TOLERANCE]
  have h1 : |125 * (25 / 11 : ℝ) ^ ((2 : ℝ) / 3) - 2160768438625 / 10 ^ 10| < TOLERANCE := by
    rw [hT, abs_sub_lt_iff]
    constructor <;> linarith [hb.1, hb.2]
  have h2 : |125 * (25 / 11 : ℝ) ^ ((2 : ℝ) / 3) - 2160768448625 / 10 ^ 10| < TOLERANCE := by
    rw [hT, abs_sub_lt_iff]
    constructor <;> linarith [hb.1, hb.2]
  refine ⟨by norm_num, by norm_num, rect5_first_exit _ h1, rect5_first_exit _ h2, ?_⟩
  rw [rect5_first_exit _ h1, rect5_first_exit _ h2]
  exact lt_irrefl 25

/-- C8 (amended): holding the shape, discharge, slope, unit system and shape
parameters fixed, a larger positive Manning roughness gives a normal depth
that is greater **or equal** — the bisection target is monotone in `n`, but
the discretized solver can return the same midpoint for two nearby targets
(see the counterexample), so strictness fails. -/
theorem c8_monotone (type : ChannelType) (p : InputParams) (unit : UnitSystem)
    (n1 n2 : ℝ) (hQ : 0 < p.flowRate) (hS : 0 < p.slope) (_hn1 : 0 < n1)
    (h12 : n1 < n2) (hD : type = ChannelType.Circular → 0 ≤ p.diameter) :
    solveNormalDepth type { p with manningN := n1 } unit ≤
      solveNormalDepth type { p with manningN := n2 } unit := by
  have e1 : solveNormalDepth type { p with manningN := n1 } unit =
      normalLoop type p (p.flowRate * n1 / (unitK unit * Real.sqrt p.slope)) MAX_ITER 0
        (if type = ChannelType.Circular then p.diameter else 50) := by
    unfold solveNormalDepth
    rw [normalLoop_manningN]
  have e2 : solveNormalDepth type { p with manningN := n2 } unit =
      normalLoop type p (p.flowRate * n2 / (unitK unit * Real.sqrt p.slope)) MAX_ITER 0
        (if type = ChannelType.Circular then p.diameter else 50) := by
    unfold solveNormalDepth
    rw [normalLoop_manningN]
  rw [e1, e2]
  have hK : 0 < unitK unit := by cases unit <;> norm_num [unitK]
  have hsS : 0 < Real.sqrt p.slope := Real.sqrt_pos.2 hS
  have htar : p.flowRate * n1 / (unitK unit * Real.sqrt p.slope) ≤
      p.flowRate * n2 / (unitK unit * Real.sqrt p.slope) := by
    rw [div_le_div_iff_of_pos_right (mul_pos hK hsS)]
    nlinarith
  have hhi : (0 : ℝ) ≤ (if type = ChannelType.Circular then p.diameter else 50) := by
    split_ifs with h
    · exact hD h
    · norm_num
  exact normalLoop_mono type p _ _ htar MAX_ITER 0 _ hhi

theorem c8_monotone_witness :
    ((0 : ℝ) < 10 ∧ (0 : ℝ) < 0.001 ∧ (0.01 : ℝ) < 0.02) ∧
    solveNormalDepth ChannelType.Rectangular
        { (⟨10, 0.001, 0.013, 5, 0, 0⟩ : InputParams) with manningN := 0.01 } UnitSystem.SI ≤
      solveNormalDepth ChannelType.Rectangular
        { (⟨10, 0.001, 0.013, 5, 0, 0⟩ : InputParams) with manningN := 0.02 } UnitSystem.SI :=
  ⟨⟨by norm_num, by norm_num, by norm_num⟩,
    c8_monotone ChannelType.Rectangular ⟨10, 0.001, 0.013, 5, 0, 0⟩ UnitSystem.SI 0.01 0.02
      (by norm_num) (by norm_num) (by norm_num) (by norm_num)
      (fun hc => ChannelType.noConfusion hc)⟩

/-- The final sort of the profile engine preserves the number of points. -/
theorem profile_length (type : ChannelType) (baseParams : InputParams)
    (sections : List CanalSectionInput) (bc : BoundaryCondition)
    (unit : UnitSystem) (stepPerSection : ℕ) :
    (calculateMultiReachProfile type baseParams sections bc unit stepPerSection).length =
      (buildFinalPoints type baseParams unit (computeSections sections)
        (processSections type baseParams bc unit
          (decide (bc.location = BCLocation.Downstream)) stepPerSection
          (processingOrder (computeSections sections)
            (decide (bc.location = BCLocation.Downstream))) none bc.value)).length := by
  simp only [calculateMultiReachProfile]
  rw [List.length_mergeSort]

/-- The final sort of the profile engine permutes the recorded depths. -/
theorem profile_depths_perm (type : ChannelType) (baseParams : InputParams)
    (sections : List CanalSectionInput) (bc : BoundaryCondition)
    (unit : UnitSystem) (stepPerSection : ℕ) :
    ((calculateMultiReachProfile type baseParams sections bc unit stepPerSection).map
        ProfilePoint.depth).Perm
      ((buildFinalPoints type baseParams unit (computeSections sections)
        (processSections type baseParams bc unit
          (decide (bc.location = BCLocation.Downstream)) stepPerSection
          (processingOrder (computeSections sections)
            (decide (bc.location = BCLocation.Downstream))) none bc.value)).map
        ProfilePoint.depth) := by
  simp only [calculateMultiReachProfile]
  exact (List.mergeSort_perm _ _).map _

/-- C4 (amended): after every sub-step a non-positive depth is reset to `0.01`
and a depth above `100` is clamped to `100` (a depth in `(0, 0.01)` is left
unchanged), so every depth recorded by a sub-step lies in `(0, 100]`; the
reach's integration does **not** terminate when the depth reaches the floor —
it continues stepping, and stops early only when an iteration begins with a
non-positive depth or with zero area or top width. -/
theorem c4_clamp_bounds (type : ChannelType) (sectionParams baseParams : InputParams)
    (unit : UnitSystem) (dx : ℝ) (idx : ℕ) (steps : List Unit) (y x : ℝ) :
    ((gvfGo type sectionParams baseParams unit dx idx steps y x).1).Forall
      (fun q => 0 < q.depth ∧ q.depth ≤ 100) := by
  induction steps generalizing y x with
  | nil => simp [gvfGo, List.Forall]
  | cons u rest ih =>
    simp only [gvfGo]
    split_ifs with h1 h2 h3 h4 h5 h6 h7
    all_goals try trivial
    all_goals rw [List.forall_cons]
    all_goals refine ⟨⟨?_, ?_⟩, ih _ _⟩
    all_goals dsimp only
    all_goals try push_neg at *
    all_goals linarith

/-- The two input modes are distinct constructors. -/
theorem slopeMode_ne_elevationMode : InputMode.SlopeMode ≠ InputMode.ElevationMode :=
  fun h => InputMode.noConfusion h

/-- C4 (counterexample): a single rectangular reach, slope 1, length 3, three
sub-steps, downstream fixed-depth boundary `1.5`, zero discharge.  The
standard-step updates are `Δy = −1` per sub-step, so the depth sequence is
`1.5, 0.5` then the floor reset to `0.01` twice: the engine reaches the `0.01`
floor at the second sub-step and *keeps integrating*, recording another floor
point.  The claim's early termination would leave at most 3 recorded points
and a single floor point; the code returns 4 points, two of them at the
floor. -/
theorem c4_counterexample :
    (calculateMultiReachProfile ChannelType.Rectangular ⟨0, 1, 13 / 1000, 5, 0, 0⟩
        [⟨3, InputMode.SlopeMode, 1, 0, 0⟩]
        ⟨BCLocation.Downstream, BCType.FixedDepth, 3 / 2⟩ UnitSystem.SI 3).length = 4 ∧
    ((calculateMultiReachProfile ChannelType.Rectangular ⟨0, 1, 13 / 1000, 5, 0, 0⟩
        [⟨3, InputMode.SlopeMode, 1, 0, 0⟩]
        ⟨BCLocation.Downstream, BCType.FixedDepth, 3 / 2⟩ UnitSystem.SI 3).map
        ProfilePoint.depth).Perm [1 / 100, 1 / 100, 1 / 2, 3 / 2] := by
  constructor
  · rw [profile_length]
    norm_num [computeSections, processingOrder, processSections, gvfGo, buildFinalPoints,
      zNodes, zFillKnowns, zAnchor, zForward, zBackward, sectionStartDist, getGeometry,
      unitK, unitG, slopeMode_ne_elevationMode, List.enum, List.enumFrom, List.range,
      List.range.loop, List.replicate, List.set, List.getD, List.get?, List.foldl,
      List.scanl, List.take, List.filter, List.flatMap, List.reverse_cons]
  · apply List.Perm.trans (profile_depths_perm ChannelType.Rectangular ⟨0, 1, 13 / 1000, 5, 0, 0⟩
      [⟨3, InputMode.SlopeMode, 1, 0, 0⟩] ⟨BCLocation.Downstream, BCType.FixedDepth, 3 / 2⟩
      UnitSystem.SI 3)
    norm_num [computeSections, processingOrder, processSections, gvfGo, buildFinalPoints,
      zNodes, zFillKnowns, zAnchor, zForward, zBackward, sectionStartDist, getGeometry,
      unitK, unitG, slopeMode_ne_elevationMode, List.enum, List.enumFrom, List.range,
      List.range.loop, List.replicate, List.set, List.getD, List.get?, List.foldl,
      List.scanl, List.take, List.filter, List.flatMap, List.reverse_cons]

end

end OCF
